import Mathlib

/-!
Shallow embedding of the pagination iterator core of `ro.py`
(`roblox/utilities/iterators.py`).

The HTTP transport is modelled as a pure oracle: a function from the query
parameters of a GET request to the decoded JSON body of the response
(identical requests receive identical responses).  Each Python method is
embedded as a pure function from the object's state (and the oracle) to a
result, the updated state, and the list of requests performed during the
call.  Python exceptions are modelled with `Except`.
-/

namespace RoPy

/-- Python exceptions observable from the iterator core: the library's
`NoMoreItems` signal, dictionary `KeyError` (with the missing key), and
list `IndexError`. -/
inductive PyErr where
  | noMoreItems
  | keyError (key : String)
  | indexError
deriving DecidableEq

/-- The JSON value stored in `next_cursor` / `previous_cursor`: either JSON
`null` (Python `None`) or a string.  `__init__` starts with the string `""`. -/
inductive CursorVal where
  | null
  | str (s : String)
deriving DecidableEq

/-- Python truthiness test used by `if ... not self.next_cursor`: both
`None` and the empty string are falsy; a non-empty string is truthy. -/
def CursorVal.falsy : CursorVal → Bool
  | .null => true
  | .str s => s == ""

/-- `SortOrder` enum from `iterators.py`. -/
inductive SortOrder where
  | Ascending
  | Descending
deriving DecidableEq

/-- The `.value` of the `SortOrder` enum member. -/
def SortOrder.value : SortOrder → String
  | .Ascending => "Asc"
  | .Descending => "Desc"

/-- `if self.handler: data = [self.handler(...) for item_data in data]`:
when a handler is present each raw record is mapped through it, in order;
otherwise the raw data is returned unchanged.  The shared object and the
fixed `handler_kwargs` are bound inside the function. -/
def applyHandler (handler : Option (α → α)) (data : List α) : List α :=
  match handler with
  | none => data
  | some f => data.map f

/-- The query parameters of one GET issued by `PageIterator.next`:
`cursor`, `limit`, `sortOrder`, plus the caller's `extra_parameters`
(merged into the params dict last, so the caller's keys win on conflict). -/
structure CursorRequest where
  url : String
  cursor : CursorVal
  limit : Nat
  sortOrder : String
  extra : List (String × String)
deriving DecidableEq

/-- The decoded JSON body answered to a cursor request.  Each field is
`none` when the corresponding key is absent from the body (so that the
dictionary accesses `page_data["..."]` in the source can raise `KeyError`),
and `some v` when the key is present with value `v` (possibly JSON null or
an empty string / empty array). -/
structure CursorResponse (α : Type) where
  nextPageCursor : Option CursorVal
  previousPageCursor : Option CursorVal
  data : Option (List α)

/-- The mutable attributes of a `PageIterator` object. -/
structure PageIteratorState (α : Type) where
  url : String
  sort_order : SortOrder
  limit : Nat
  extra_parameters : List (String × String)
  handler : Option (α → α)
  next_cursor : CursorVal
  previous_cursor : CursorVal
  next_started : Bool

/-- Result of one call to an iterator's `next`: the returned page (or the
exception raised), the state of the object after the call, and the requests
performed during the call. -/
structure NextResult (α σ ρ : Type) where
  result : Except PyErr (List α)
  state : σ
  requests : List ρ

/-- `PageIterator.__init__`: cursors start as the empty string,
`next_started` as `False`. -/
def PageIterator.init (url : String) (sort_order : SortOrder) (limit : Nat)
    (extra_parameters : List (String × String)) (handler : Option (α → α)) :
    PageIteratorState α :=
  { url := url
    sort_order := sort_order
    limit := limit
    extra_parameters := extra_parameters
    handler := handler
    next_cursor := .str ""
    previous_cursor := .str ""
    next_started := false }

/-- The params dict built by `PageIterator.next` for its GET. -/
def PageIterator.mkRequest (s : PageIteratorState α) : CursorRequest :=
  { url := s.url
    cursor := s.next_cursor
    limit := s.limit
    sortOrder := s.sort_order.value
    extra := s.extra_parameters }

/-- `PageIterator.next`: guard (`next_started and not next_cursor` raises
`NoMoreItems` before any request), set `next_started`, GET the page, read
`nextPageCursor`, `previousPageCursor` and `data` from the body in that
order (each read raises `KeyError` if the key is absent, after the earlier
assignments already happened), apply the handler, return the data. -/
def PageIterator.next (server : CursorRequest → CursorResponse α)
    (s : PageIteratorState α) :
    NextResult α (PageIteratorState α) CursorRequest :=
  if s.next_started && s.next_cursor.falsy then
    ⟨.error .noMoreItems, s, []⟩
  else
    let s1 := { s with next_started := true }
    let req := PageIterator.mkRequest s1
    let page_data := server req
    match page_data.nextPageCursor with
    | none => ⟨.error (.keyError "nextPageCursor"), s1, [req]⟩
    | some nc =>
      let s2 := { s1 with next_cursor := nc }
      match page_data.previousPageCursor with
      | none => ⟨.error (.keyError "previousPageCursor"), s2, [req]⟩
      | some pc =>
        let s3 := { s2 with previous_cursor := pc }
        match page_data.data with
        | none => ⟨.error (.keyError "data"), s3, [req]⟩
        | some data => ⟨.ok (applyHandler s3.handler data), s3, [req]⟩

/-- `PageIterator.next` seen as a pure state step (result and new state),
the shape consumed by the base-class code (`flatten` and the two views). -/
def PageIterator.step (server : CursorRequest → CursorResponse α)
    (s : PageIteratorState α) :
    Except PyErr (List α) × PageIteratorState α :=
  ((PageIterator.next server s).result, (PageIterator.next server s).state)

/-- The query parameters of one GET issued by `PageNumberIterator.next`:
`pageNumber`, `pageSize`, plus the caller's `extra_parameters`. -/
structure NumberRequest where
  url : String
  pageNumber : Nat
  pageSize : Nat
  extra : List (String × String)
deriving DecidableEq

/-- The mutable attributes of a `PageNumberIterator` object. -/
structure PageNumberIteratorState (α : Type) where
  url : String
  page_number : Nat
  page_size : Nat
  extra_parameters : List (String × String)
  handler : Option (α → α)

/-- `PageNumberIterator.__init__`: `page_number` starts at 1. -/
def PageNumberIterator.init (url : String) (page_size : Nat)
    (extra_parameters : List (String × String)) (handler : Option (α → α)) :
    PageNumberIteratorState α :=
  { url := url
    page_number := 1
    page_size := page_size
    extra_parameters := extra_parameters
    handler := handler }

/-- The params dict built by `PageNumberIterator.next` for its GET. -/
def PageNumberIterator.mkRequest (s : PageNumberIteratorState α) : NumberRequest :=
  { url := s.url
    pageNumber := s.page_number
    pageSize := s.page_size
    extra := s.extra_parameters }

/-- `PageNumberIterator.next`: GET the page (the body is a bare JSON
array), raise `NoMoreItems` if it is empty (before any mutation), otherwise
increment `page_number`, apply the handler and return the data. -/
def PageNumberIterator.next (server : NumberRequest → List α)
    (s : PageNumberIteratorState α) :
    NextResult α (PageNumberIteratorState α) NumberRequest :=
  let req := PageNumberIterator.mkRequest s
  let data := server req
  if data.length = 0 then
    ⟨.error .noMoreItems, s, [req]⟩
  else
    let s1 := { s with page_number := s.page_number + 1 }
    ⟨.ok (applyHandler s1.handler data), s1, [req]⟩

/-- `PageNumberIterator.next` seen as a pure state step. -/
def PageNumberIterator.step (server : NumberRequest → List α)
    (s : PageNumberIteratorState α) :
    Except PyErr (List α) × PageNumberIteratorState α :=
  ((PageNumberIterator.next server s).result, (PageNumberIterator.next server s).state)

/-- Repeated application of a `next`-style step: the object's state after
`n` further calls. -/
def iterState (step : σ → Except PyErr (List α) × σ) : Nat → σ → σ
  | 0, s => s
  | n + 1, s => iterState step n (step s).2

/-- Whether a `next` outcome returned a page (rather than raising). -/
def isOk : Except PyErr (List α) → Bool
  | .ok _ => true
  | .error _ => false

/-- The first `n` calls of the step all return pages (none raises). -/
def allOk (step : σ → Except PyErr (List α) × σ) (n : Nat) (s : σ) : Bool :=
  (List.range n).all fun i => isOk (step (iterState step i s)).1

/-- One iteration of the `while True` loop in `Iterator.flatten`, with
explicit fuel: `next` is called; `NoMoreItems` breaks the loop returning
the accumulated items; any other exception propagates; a returned page is
appended (`items += new_items`).  `none` means the fuel ran out before the
loop finished. -/
def Iterator.flattenAux (step : σ → Except PyErr (List α) × σ) :
    Nat → σ → List α → Option (Except PyErr (List α) × σ)
  | 0, _, _ => none
  | fuel + 1, s, items =>
    match step s with
    | (.error .noMoreItems, s1) => some (.ok items, s1)
    | (.error e, s1) => some (.error e, s1)
    | (.ok new_items, s1) => Iterator.flattenAux step fuel s1 (items ++ new_items)

/-- `Iterator.flatten`: run the loop starting from the empty accumulator. -/
def Iterator.flatten (step : σ → Except PyErr (List α) × σ) (fuel : Nat) (s : σ) :
    Option (Except PyErr (List α) × σ) :=
  Iterator.flattenAux step fuel s []

/-- Exceptions surfaced by the views' `__anext__`: `StopAsyncIteration`
(clean termination of the async-for loop) or a propagated exception from
the underlying `next`. -/
inductive ViewErr where
  | stop
  | raised (e : PyErr)
deriving DecidableEq

/-- `IteratorPages.__anext__`: call the owning iterator's `next`; a page is
returned as-is, `NoMoreItems` becomes `StopAsyncIteration`, any other
exception propagates. -/
def IteratorPages.anext (step : σ → Except PyErr (List α) × σ) (s : σ) :
    Except ViewErr (List α) × σ :=
  match step s with
  | (.ok page, s1) => (.ok page, s1)
  | (.error .noMoreItems, s1) => (.error .stop, s1)
  | (.error e, s1) => (.error (.raised e), s1)

/-- Driving the Page View to completion: repeatedly call its `__anext__`,
collecting every yielded page in order until `StopAsyncIteration`; any
other exception aborts the traversal.  `none` means the fuel ran out. -/
def IteratorPages.collect (step : σ → Except PyErr (List α) × σ) :
    Nat → σ → List (List α) → Option (Except ViewErr (List (List α)) × σ)
  | 0, _, _ => none
  | fuel + 1, s, acc =>
    match IteratorPages.anext step s with
    | (.ok page, s1) => IteratorPages.collect step fuel s1 (acc ++ [page])
    | (.error .stop, s1) => some (.ok acc, s1)
    | (.error e, s1) => some (.error e, s1)

/-- Spec-side glue for the refinement claim about `flatten`: the outcome of
driving the Page View, with the collected pages concatenated in order and
a propagated exception unwrapped.  (The `.stop` error case never occurs as
a final outcome of `IteratorPages.collect`; it is mapped to `none`.) -/
def joinPagesOutcome :
    Option (Except ViewErr (List (List α)) × σ) → Option (Except PyErr (List α) × σ)
  | none => none
  | some (.ok pages, s) => some (.ok pages.flatten, s)
  | some (.error .stop, _) => none
  | some (.error (.raised e), s) => some (.error e, s)

/-- The mutable attributes of an `IteratorItems` object: the zero-based
position into the buffered item list, and the buffer itself. -/
structure IteratorItemsState (α : Type) where
  position : Nat
  items : List α
deriving DecidableEq

/-- Python list subscript `items[i]` for a non-negative index: the element,
or `IndexError` when `i` is out of bounds. -/
def pyListGet (l : List α) (i : Nat) : Except PyErr α :=
  match l.get? i with
  | some x => .ok x
  | none => .error .indexError

/-- The tail of `IteratorItems.__anext__` after the page-boundary block:
`try: item = self._items[self._position] except IndexError: raise
StopAsyncIteration`, then increment the position and return the item. -/
def IteratorItems.readItem (v : IteratorItemsState α) (s : σ) :
    Except ViewErr α × IteratorItemsState α × σ :=
  match pyListGet v.items v.position with
  | .error _ => (.error .stop, v, s)
  | .ok item => (.ok item, { v with position := v.position + 1 }, s)

/-- `IteratorItems.__anext__`: at a page boundary (`position == len(items)`)
reset the position to 0 and call the owning iterator's `next`; on
`NoMoreItems` clear position and buffer and raise `StopAsyncIteration`; on
any other exception propagate it (position already reset, buffer
unchanged); on success replace the buffer.  Then read the item at the
current position (an `IndexError` becomes `StopAsyncIteration`), advance
the position and return the item. -/
def IteratorItems.anext (step : σ → Except PyErr (List α) × σ)
    (v : IteratorItemsState α) (s : σ) :
    Except ViewErr α × IteratorItemsState α × σ :=
  if v.position = v.items.length then
    match step s with
    | (.error .noMoreItems, s1) => (.error .stop, ⟨0, []⟩, s1)
    | (.error e, s1) => (.error (.raised e), { v with position := 0 }, s1)
    | (.ok new_items, s1) => IteratorItems.readItem ⟨0, new_items⟩ s1
  else
    IteratorItems.readItem v s

/-- `IteratorItems.__aiter__`: reset the local position to 0 and the local
buffer to the empty list; the owning iterator's state is untouched. -/
def IteratorItems.aiter (_v : IteratorItemsState α) (s : σ) :
    IteratorItemsState α × σ :=
  (⟨0, []⟩, s)

theorem iterState_of_fixed (step : σ → Except PyErr (List α) × σ) (s : σ)
    (h : (step s).2 = s) : ∀ n, iterState step n s = s := by
  intro n
  induction n with
  | zero => rfl
  | succ n ih =>
    show iterState step n (step s).2 = s
    rw [h]
    exact ih

theorem PageIterator.next_of_guard (server : CursorRequest → CursorResponse α)
    (s : PageIteratorState α) (hc : (s.next_started && s.next_cursor.falsy) = true) :
    PageIterator.next server s = ⟨.error .noMoreItems, s, []⟩ := by
  simp [PageIterator.next, hc]

theorem PageIterator.next_of_fetch (server : CursorRequest → CursorResponse α)
    (s : PageIteratorState α) (hc : (s.next_started && s.next_cursor.falsy) = false)
    (nc pc : Option CursorVal) (d : Option (List α))
    (hr : server (PageIterator.mkRequest { s with next_started := true }) = ⟨nc, pc, d⟩) :
    PageIterator.next server s =
      match nc with
      | none => ⟨.error (.keyError "nextPageCursor"), { s with next_started := true },
          [PageIterator.mkRequest { s with next_started := true }]⟩
      | some ncv =>
        match pc with
        | none => ⟨.error (.keyError "previousPageCursor"),
            { s with next_started := true, next_cursor := ncv },
            [PageIterator.mkRequest { s with next_started := true }]⟩
        | some pcv =>
          match d with
          | none => ⟨.error (.keyError "data"),
              { s with next_started := true, next_cursor := ncv, previous_cursor := pcv },
              [PageIterator.mkRequest { s with next_started := true }]⟩
          | some data => ⟨.ok (applyHandler s.handler data),
              { s with next_started := true, next_cursor := ncv, previous_cursor := pcv },
              [PageIterator.mkRequest { s with next_started := true }]⟩ := by
  rcases nc with _ | ncv
  · simp [PageIterator.next, hc, hr]
  · rcases pc with _ | pcv
    · simp [PageIterator.next, hc, hr]
    · rcases d with _ | data <;> simp [PageIterator.next, hc, hr]

theorem PageIterator.noMoreItems_inv
    (server : CursorRequest → CursorResponse α) (s s1 : PageIteratorState α)
    (r : List CursorRequest)
    (h : PageIterator.next server s = ⟨.error .noMoreItems, s1, r⟩) :
    s1 = s ∧ s.next_started = true ∧ s.next_cursor.falsy = true := by
  rcases hc : s.next_started && s.next_cursor.falsy
  · exfalso
    rcases hr : server (PageIterator.mkRequest { s with next_started := true }) with ⟨nc, pc, d⟩
    rw [PageIterator.next_of_fetch server s hc nc pc d hr] at h
    rcases nc with _ | ncv
    · exact PyErr.noConfusion (Except.error.inj (congrArg NextResult.result h))
    · rcases pc with _ | pcv
      · exact PyErr.noConfusion (Except.error.inj (congrArg NextResult.result h))
      · rcases d with _ | data
        · exact PyErr.noConfusion (Except.error.inj (congrArg NextResult.result h))
        · exact Except.noConfusion (congrArg NextResult.result h)
  · rw [PageIterator.next_of_guard server s hc] at h
    obtain ⟨hb1, hb2⟩ := Bool.and_eq_true_iff.mp hc
    injection h with h1 h2 h3
    exact ⟨h2.symm, hb1, hb2⟩

theorem PageNumberIterator.noMoreItems_empty_inv
    (server : NumberRequest → List α) (s s1 : PageNumberIteratorState α)
    (r : List NumberRequest)
    (h : PageNumberIterator.next server s = ⟨.error .noMoreItems, s1, r⟩) :
    s1 = s ∧ (server (PageNumberIterator.mkRequest s)).length = 0 := by
  by_cases hc : (server (PageNumberIterator.mkRequest s)).length = 0
  · simp only [PageNumberIterator.next, if_pos hc] at h
    injection h with h1 h2 h3
    exact ⟨h2.symm, hc⟩
  · exfalso
    simp only [PageNumberIterator.next] at h
    rw [if_neg hc] at h
    exact Except.noConfusion (congrArg NextResult.result h)

/-- Claim C1: for a cursor iterator, if `next_started` is true and
`next_cursor` is the empty string, `next()` raises `NoMoreItems` with no
request performed and no state mutated, and the same holds after any number
of further `next()` calls: the sequence is permanently exhausted. -/
theorem C1_exhaustion_guard (server : CursorRequest → CursorResponse α)
    (s : PageIteratorState α)
    (hstarted : s.next_started = true) (hcursor : s.next_cursor = .str "") :
    PageIterator.next server s = ⟨.error .noMoreItems, s, []⟩ ∧
    ∀ n, PageIterator.next server (iterState (PageIterator.step server) n s) =
      ⟨.error .noMoreItems, s, []⟩ := by
  have hone : PageIterator.next server s = ⟨.error .noMoreItems, s, []⟩ := by
    simp [PageIterator.next, hstarted, hcursor, CursorVal.falsy]
  have hfix : (PageIterator.step server s).2 = s := by
    simp [PageIterator.step, hone]
  refine ⟨hone, fun n => ?_⟩
  rw [iterState_of_fixed _ _ hfix n]
  exact hone

/-- Witness for C1 on a concrete exhausted iterator state. -/
theorem C1_exhaustion_guard_witness :
    PageIterator.next (fun _ => (⟨some .null, some .null, some []⟩ : CursorResponse Nat))
      { url := "u", sort_order := .Ascending, limit := 10, extra_parameters := [],
        handler := none, next_cursor := .str "", previous_cursor := .str "",
        next_started := true } =
      ⟨.error .noMoreItems,
        { url := "u", sort_order := .Ascending, limit := 10, extra_parameters := [],
          handler := none, next_cursor := .str "", previous_cursor := .str "",
          next_started := true }, []⟩ :=
  (C1_exhaustion_guard _ _ rfl rfl).1

/-- Claim C2: for both iterator classes, once `next()` has raised
`NoMoreItems` the state is unchanged and every subsequent call raises
`NoMoreItems` again (and hence never returns data), the server answering
identical requests identically. -/
theorem C2_stable_exhaustion :
    (∀ (α : Type) (server : CursorRequest → CursorResponse α)
        (s s1 : PageIteratorState α) (r : List CursorRequest),
      PageIterator.next server s = ⟨.error .noMoreItems, s1, r⟩ →
      s1 = s ∧ ∀ n, (PageIterator.next server
          (iterState (PageIterator.step server) n s1)).result =
        .error .noMoreItems) ∧
    (∀ (α : Type) (server : NumberRequest → List α)
        (s s1 : PageNumberIteratorState α) (r : List NumberRequest),
      PageNumberIterator.next server s = ⟨.error .noMoreItems, s1, r⟩ →
      s1 = s ∧ ∀ n, (PageNumberIterator.next server
          (iterState (PageNumberIterator.step server) n s1)).result =
        .error .noMoreItems) := by
  constructor
  · intro α server s s1 r h
    obtain ⟨hse, hstarted, hfalsy⟩ := PageIterator.noMoreItems_inv server s s1 r h
    subst hse
    have hone : PageIterator.next server s1 = ⟨.error .noMoreItems, s1, []⟩ := by
      rw [PageIterator.next, if_pos (by rw [hstarted, hfalsy]; rfl)]
    have hfix : (PageIterator.step server s1).2 = s1 := by
      simp [PageIterator.step, hone]
    refine ⟨rfl, fun n => ?_⟩
    rw [iterState_of_fixed _ _ hfix n, hone]
  · intro α server s s1 r h
    obtain ⟨hse, hempty⟩ := PageNumberIterator.noMoreItems_empty_inv server s s1 r h
    subst hse
    have hone : PageNumberIterator.next server s1 =
        ⟨.error .noMoreItems, s1, [PageNumberIterator.mkRequest s1]⟩ := by
      simp only [PageNumberIterator.next, if_pos hempty]
    have hfix : (PageNumberIterator.step server s1).2 = s1 := by
      simp [PageNumberIterator.step, hone]
    refine ⟨rfl, fun n => ?_⟩
    rw [iterState_of_fixed _ _ hfix n, hone]

/-- Witness for C2: a cursor iterator exhausted by its guard, and a
page-number iterator answered by an always-empty server, both keep raising
`NoMoreItems` on the call after the one that raised. -/
theorem C2_stable_exhaustion_witness :
    ((PageIterator.next (fun _ => (⟨some .null, some .null, some []⟩ : CursorResponse Nat))
        { url := "u", sort_order := .Ascending, limit := 10, extra_parameters := [],
          handler := none, next_cursor := .str "", previous_cursor := .str "",
          next_started := true }).result = .error .noMoreItems) ∧
    ((PageNumberIterator.next (fun _ => ([] : List Nat))
        { url := "u", page_number := 1, page_size := 10, extra_parameters := [],
          handler := none }).result = .error .noMoreItems) := by
  constructor
  · exact (C2_stable_exhaustion.1 Nat
      (fun _ => (⟨some .null, some .null, some []⟩ : CursorResponse Nat))
      { url := "u", sort_order := .Ascending, limit := 10, extra_parameters := [],
        handler := none, next_cursor := .str "", previous_cursor := .str "",
        next_started := true }
      { url := "u", sort_order := .Ascending, limit := 10, extra_parameters := [],
        handler := none, next_cursor := .str "", previous_cursor := .str "",
        next_started := true }
      [] rfl).2 0
  · exact (C2_stable_exhaustion.2 Nat (fun _ => ([] : List Nat))
      { url := "u", page_number := 1, page_size := 10, extra_parameters := [],
        handler := none }
      { url := "u", page_number := 1, page_size := 10, extra_parameters := [],
        handler := none }
      [{ url := "u", pageNumber := 1, pageSize := 10, extra := [] }] rfl).2 0

theorem PageNumberIterator.next_of_empty (server : NumberRequest → List α)
    (s : PageNumberIteratorState α)
    (hc : (server (PageNumberIterator.mkRequest s)).length = 0) :
    PageNumberIterator.next server s =
      ⟨.error .noMoreItems, s, [PageNumberIterator.mkRequest s]⟩ := by
  simp [PageNumberIterator.next, hc]

theorem PageNumberIterator.next_of_nonempty (server : NumberRequest → List α)
    (s : PageNumberIteratorState α)
    (hc : (server (PageNumberIterator.mkRequest s)).length ≠ 0) :
    PageNumberIterator.next server s =
      ⟨.ok (applyHandler s.handler (server (PageNumberIterator.mkRequest s))),
        { s with page_number := s.page_number + 1 },
        [PageNumberIterator.mkRequest s]⟩ := by
  simp [PageNumberIterator.next, hc]

theorem allOk_head (step : σ → Except PyErr (List α) × σ) (n : Nat) (s : σ)
    (h : allOk step (n + 1) s = true) : isOk (step s).1 = true := by
  have := List.all_eq_true.mp h 0 (by simp)
  simpa [iterState] using this

theorem allOk_tail (step : σ → Except PyErr (List α) × σ) (n : Nat) (s : σ)
    (h : allOk step (n + 1) s = true) : allOk step n (step s).2 = true := by
  refine List.all_eq_true.mpr ?_
  intro i hi
  have hi2 : i + 1 ∈ List.range (n + 1) := by
    simp only [List.mem_range] at hi ⊢
    omega
  have := List.all_eq_true.mp h (i + 1) hi2
  simpa [iterState] using this

theorem PageNumberIterator.state_after (server : NumberRequest → List α) :
    ∀ (n : Nat) (s : PageNumberIteratorState α),
      allOk (PageNumberIterator.step server) n s = true →
      iterState (PageNumberIterator.step server) n s =
        { s with page_number := s.page_number + n } := by
  intro n
  induction n with
  | zero => intro s _; rfl
  | succ n ih =>
    intro s hok
    have h0 : isOk (PageNumberIterator.step server s).1 = true :=
      allOk_head _ _ _ hok
    have hne : (server (PageNumberIterator.mkRequest s)).length ≠ 0 := by
      intro hz
      rw [PageNumberIterator.step, PageNumberIterator.next_of_empty server s hz] at h0
      simp [isOk] at h0
    have hstep2 : (PageNumberIterator.step server s).2 =
        { s with page_number := s.page_number + 1 } := by
      rw [PageNumberIterator.step, PageNumberIterator.next_of_nonempty server s hne]
    have htail := allOk_tail _ n s hok
    show iterState (PageNumberIterator.step server) n
        (PageNumberIterator.step server s).2 = _
    rw [ih _ htail, hstep2]
    dsimp only
    congr 1
    omega

/-- Claim C4: `page_number` starts at 1; every `next()` issues exactly one
fetch whose `pageNumber` parameter is the current `page_number`; an empty
response array raises `NoMoreItems` with no state mutation; a non-empty
response increments `page_number` by exactly 1; consequently, after `n`
non-empty fetches from a fresh iterator the next fetch carries
`pageNumber = n + 1`, i.e. the `n`-th fetch (1-indexed) carries `n`. -/
theorem C4_page_number_protocol :
    (∀ (α : Type) (url : String) (psize : Nat) (extra : List (String × String))
        (h : Option (α → α)),
      (PageNumberIterator.init url psize extra h).page_number = 1) ∧
    (∀ (α : Type) (server : NumberRequest → List α) (s : PageNumberIteratorState α),
      (PageNumberIterator.next server s).requests = [PageNumberIterator.mkRequest s] ∧
      (PageNumberIterator.mkRequest s).pageNumber = s.page_number) ∧
    (∀ (α : Type) (server : NumberRequest → List α) (s : PageNumberIteratorState α),
      (server (PageNumberIterator.mkRequest s)).length = 0 →
      PageNumberIterator.next server s =
        ⟨.error .noMoreItems, s, [PageNumberIterator.mkRequest s]⟩) ∧
    (∀ (α : Type) (server : NumberRequest → List α) (s : PageNumberIteratorState α),
      (server (PageNumberIterator.mkRequest s)).length ≠ 0 →
      (PageNumberIterator.next server s).state =
        { s with page_number := s.page_number + 1 }) ∧
    (∀ (α : Type) (server : NumberRequest → List α) (url : String) (psize : Nat)
        (extra : List (String × String)) (h : Option (α → α)) (n : Nat),
      allOk (PageNumberIterator.step server) n
          (PageNumberIterator.init url psize extra h) = true →
      (PageNumberIterator.next server
          (iterState (PageNumberIterator.step server) n
            (PageNumberIterator.init url psize extra h))).requests =
        [{ url := url, pageNumber := n + 1, pageSize := psize, extra := extra }]) := by
  refine ⟨fun α url psize extra h => rfl, ?_, ?_, ?_, ?_⟩
  · intro α server s
    refine ⟨?_, rfl⟩
    by_cases hc : (server (PageNumberIterator.mkRequest s)).length = 0
    · rw [PageNumberIterator.next_of_empty server s hc]
    · rw [PageNumberIterator.next_of_nonempty server s hc]
  · intro α server s hc
    exact PageNumberIterator.next_of_empty server s hc
  · intro α server s hc
    rw [PageNumberIterator.next_of_nonempty server s hc]
  · intro α server url psize extra h n hok
    rw [PageNumberIterator.state_after server n _ hok]
    have hreq : ∀ t : PageNumberIteratorState α,
        (PageNumberIterator.next server t).requests = [PageNumberIterator.mkRequest t] := by
      intro t
      by_cases hc : (server (PageNumberIterator.mkRequest t)).length = 0
      · rw [PageNumberIterator.next_of_empty server t hc]
      · rw [PageNumberIterator.next_of_nonempty server t hc]
    rw [hreq]
    simp [PageNumberIterator.mkRequest, PageNumberIterator.init]
    omega

/-- Witness for C4: a server with two non-empty pages then an empty one;
after the two successful calls the third fetch carries `pageNumber = 3`. -/
theorem C4_page_number_protocol_witness :
    (allOk (PageNumberIterator.step (fun r => if r.pageNumber ≤ 2 then [r.pageNumber] else []))
        2 (PageNumberIterator.init "u" 10 [] none) = true) ∧
    (PageNumberIterator.next (fun r => if r.pageNumber ≤ 2 then [r.pageNumber] else [])
        (iterState (PageNumberIterator.step
            (fun r => if r.pageNumber ≤ 2 then [r.pageNumber] else [])) 2
          (PageNumberIterator.init "u" 10 [] none))).requests =
      [{ url := "u", pageNumber := 3, pageSize := 10, extra := [] }] :=
  ⟨by decide, C4_page_number_protocol.2.2.2.2 Nat
    (fun r => if r.pageNumber ≤ 2 then [r.pageNumber] else []) "u" 10 [] none 2 (by decide)⟩

theorem PageIterator.next_requests_of_not_started
    (server : CursorRequest → CursorResponse α) (s : PageIteratorState α)
    (hns : s.next_started = false) :
    (PageIterator.next server s).requests =
      [PageIterator.mkRequest { s with next_started := true }] ∧
    (PageIterator.next server s).result ≠ .error .noMoreItems := by
  have hc : (s.next_started && s.next_cursor.falsy) = false := by rw [hns]; rfl
  rcases hr : server (PageIterator.mkRequest { s with next_started := true }) with ⟨nc, pc, d⟩
  rw [PageIterator.next_of_fetch server s hc nc pc d hr]
  rcases nc with _ | ncv
  · exact ⟨rfl, by simp⟩
  · rcases pc with _ | pcv
    · exact ⟨rfl, by simp⟩
    · rcases d with _ | data
      · exact ⟨rfl, by simp⟩
      · exact ⟨rfl, by simp⟩

/-- Claim C5: the first `next()` call on a freshly constructed cursor
iterator issues one fetch whose `cursor` parameter is the empty string, and
more generally any call with `next_started = false` issues a fetch with the
currently held cursor and never raises `NoMoreItems`: the empty-cursor
exhaustion rule is enforced only once `next_started` is true. -/
theorem C5_first_call_fetches :
    (∀ (α : Type) (server : CursorRequest → CursorResponse α) (url : String)
        (so : SortOrder) (lim : Nat) (extra : List (String × String))
        (h : Option (α → α)),
      (PageIterator.next server (PageIterator.init url so lim extra h)).requests =
        [{ url := url, cursor := .str "", limit := lim, sortOrder := so.value,
           extra := extra }]) ∧
    (∀ (α : Type) (server : CursorRequest → CursorResponse α)
        (s : PageIteratorState α),
      s.next_started = false →
      (PageIterator.next server s).result ≠ .error .noMoreItems ∧
      (PageIterator.next server s).requests =
        [{ url := s.url, cursor := s.next_cursor, limit := s.limit,
           sortOrder := s.sort_order.value, extra := s.extra_parameters }]) := by
  constructor
  · intro α server url so lim extra h
    have := PageIterator.next_requests_of_not_started server
      (PageIterator.init url so lim extra h) rfl
    rw [this.1]
    rfl
  · intro α server s hns
    have := PageIterator.next_requests_of_not_started server s hns
    exact ⟨this.2, this.1⟩

/-- Witness for C5: a fresh iterator with a one-page server; the only
request of the first call carries the empty-string cursor. -/
theorem C5_first_call_fetches_witness :
    (PageIterator.next
        (fun _ => (⟨some .null, some .null, some [3]⟩ : CursorResponse Nat))
        { url := "u", sort_order := .Ascending, limit := 10,
          extra_parameters := [], handler := none, next_cursor := .str "xyz",
          previous_cursor := .str "", next_started := false }).result ≠
      .error .noMoreItems :=
  (C5_first_call_fetches.2 Nat
    (fun _ => (⟨some .null, some .null, some [3]⟩ : CursorResponse Nat))
    { url := "u", sort_order := .Ascending, limit := 10,
      extra_parameters := [], handler := none, next_cursor := .str "xyz",
      previous_cursor := .str "", next_started := false } rfl).1

/-- Claim C6: a fetched page whose `data` array is empty is returned by
`next()` as the empty list, not converted to `NoMoreItems`; and
`NoMoreItems` can only originate from the started-and-falsy-cursor guard
(so never from an empty `data` array of the current fetch). -/
theorem C6_empty_page_returned :
    (∀ (α : Type) (server : CursorRequest → CursorResponse α)
        (s : PageIteratorState α) (nc pc : CursorVal),
      (s.next_started && s.next_cursor.falsy) = false →
      server (PageIterator.mkRequest { s with next_started := true }) =
        ⟨some nc, some pc, some []⟩ →
      (PageIterator.next server s).result = .ok []) ∧
    (∀ (α : Type) (server : CursorRequest → CursorResponse α)
        (s s1 : PageIteratorState α) (r : List CursorRequest),
      PageIterator.next server s = ⟨.error .noMoreItems, s1, r⟩ →
      s.next_started = true ∧ s.next_cursor.falsy = true) := by
  constructor
  · intro α server s nc pc hc hr
    rw [PageIterator.next_of_fetch server s hc (some nc) (some pc) (some []) hr]
    cases s.handler <;> simp [applyHandler]
  · intro α server s s1 r h
    exact (PageIterator.noMoreItems_inv server s s1 r h).2

/-- Witness for C6: a started iterator with a non-empty cursor receives a
page with an empty `data` array and returns the empty list. -/
theorem C6_empty_page_returned_witness :
    (PageIterator.next
        (fun _ => (⟨some (.str ""), some .null, some []⟩ : CursorResponse Nat))
        { url := "u", sort_order := .Ascending, limit := 10,
          extra_parameters := [], handler := none, next_cursor := .str "abc",
          previous_cursor := .str "", next_started := true }).result = .ok [] :=
  C6_empty_page_returned.1 Nat
    (fun _ => (⟨some (.str ""), some .null, some []⟩ : CursorResponse Nat))
    { url := "u", sort_order := .Ascending, limit := 10,
      extra_parameters := [], handler := none, next_cursor := .str "abc",
      previous_cursor := .str "", next_started := true }
    (.str "") .null rfl rfl

theorem IteratorItems.readItem_ne_raised (v : IteratorItemsState α) (s : σ)
    (e : PyErr) : (IteratorItems.readItem v s).1 ≠ .error (.raised e) := by
  rcases h : pyListGet v.items v.position with e1 | item <;>
    simp [IteratorItems.readItem, h]

/-- Claim C7: the Item View's step never surfaces an `IndexError` (provided
the underlying `next` does not raise one, which both concrete iterators
never do): a freshly fetched empty buffer makes the step raise
`StopAsyncIteration` — terminating the sequence cleanly — rather than
faulting on the out-of-bounds read at position 0. -/
theorem C7_items_no_index_fault :
    (∀ (α σ : Type) (step : σ → Except PyErr (List α) × σ),
      (∀ t, (step t).1 ≠ .error .indexError) →
      ∀ (v : IteratorItemsState α) (s : σ),
        (IteratorItems.anext step v s).1 ≠ .error (.raised .indexError)) ∧
    (∀ (α σ : Type) (step : σ → Except PyErr (List α) × σ)
        (v : IteratorItemsState α) (s s1 : σ),
      v.position = v.items.length → step s = (.ok [], s1) →
      IteratorItems.anext step v s = (.error .stop, ⟨0, []⟩, s1)) ∧
    (∀ (α : Type) (server : CursorRequest → CursorResponse α)
        (s : PageIteratorState α),
      (PageIterator.step server s).1 ≠ .error .indexError) ∧
    (∀ (α : Type) (server : NumberRequest → List α)
        (s : PageNumberIteratorState α),
      (PageNumberIterator.step server s).1 ≠ .error .indexError) := by
  refine ⟨?_, ?_, ?_, ?_⟩
  · intro α σ step hstep v s
    rw [IteratorItems.anext]
    by_cases hb : v.position = v.items.length
    · rw [if_pos hb]
      rcases hs : step s with ⟨r, s1⟩
      rcases r with e | new_items
      · rcases e with _ | k | _
        · simp
        · simp
        · exact absurd (by rw [hs]) (hstep s)
      · exact IteratorItems.readItem_ne_raised _ _ _
    · rw [if_neg hb]
      exact IteratorItems.readItem_ne_raised _ _ _
  · intro α σ step v s s1 hb hs
    rw [IteratorItems.anext, if_pos hb, hs]
    simp [IteratorItems.readItem, pyListGet]
  · intro α server s
    rcases hc : s.next_started && s.next_cursor.falsy
    · rcases hr : server (PageIterator.mkRequest { s with next_started := true })
        with ⟨nc, pc, d⟩
      rw [PageIterator.step, PageIterator.next_of_fetch server s hc nc pc d hr]
      rcases nc with _ | ncv
      · simp
      · rcases pc with _ | pcv
        · simp
        · rcases d with _ | data <;> simp
    · rw [PageIterator.step, PageIterator.next_of_guard server s hc]
      simp
  · intro α server s
    by_cases hc : (server (PageNumberIterator.mkRequest s)).length = 0
    · rw [PageNumberIterator.step, PageNumberIterator.next_of_empty server s hc]
      simp
    · rw [PageNumberIterator.step, PageNumberIterator.next_of_nonempty server s hc]
      simp

/-- Witness for C7: a single empty page (the group-roles shape) makes the
Item View stop cleanly on its very first step. -/
theorem C7_items_no_index_fault_witness :
    IteratorItems.anext (fun u => ((.ok [] : Except PyErr (List Nat)), u))
      (⟨0, []⟩ : IteratorItemsState Nat) (0 : Nat) =
      (.error .stop, ⟨0, []⟩, 0) :=
  C7_items_no_index_fault.2.1 Nat Nat (fun u => (.ok [], u)) ⟨0, []⟩ 0 0 rfl rfl

/-- Claim C8: re-invoking the Item View's `__aiter__` resets the local
position to 0 and the local buffer to the empty list while the owning
iterator's state is unchanged; hence the next item produced is the first
item of whatever page the iterator fetches next. -/
theorem C8_aiter_resets_view_only :
    (∀ (α σ : Type) (v : IteratorItemsState α) (s : σ),
      IteratorItems.aiter v s = (⟨0, []⟩, s)) ∧
    (∀ (α σ : Type) (step : σ → Except PyErr (List α) × σ)
        (v : IteratorItemsState α) (s : σ) (s1 : σ) (x : α) (rest : List α),
      step s = (.ok (x :: rest), s1) →
      IteratorItems.anext step (IteratorItems.aiter v s).1
          (IteratorItems.aiter v s).2 =
        (.ok x, ⟨1, x :: rest⟩, s1)) := by
  constructor
  · intro α σ v s
    rfl
  · intro α σ step v s s1 x rest hs
    simp [IteratorItems.aiter, IteratorItems.anext, hs, IteratorItems.readItem,
      pyListGet]

/-- Witness for C8: restarting a mid-traversal view (position 3, old
buffer) and stepping yields the head of the page the iterator fetches
next, not the old buffer's head. -/
theorem C8_aiter_resets_view_only_witness :
    IteratorItems.anext (fun u => ((.ok [5, 7] : Except PyErr (List Nat)), u))
      (IteratorItems.aiter (⟨3, [9]⟩ : IteratorItemsState Nat) (0 : Nat)).1
      (IteratorItems.aiter (⟨3, [9]⟩ : IteratorItemsState Nat) (0 : Nat)).2 =
      (.ok 5, ⟨1, [5, 7]⟩, 0) :=
  C8_aiter_resets_view_only.2 Nat Nat (fun u => (.ok [5, 7], u)) ⟨3, [9]⟩ 0 0 5 [7] rfl

theorem flattenAux_eq_collect (step : σ → Except PyErr (List α) × σ) :
    ∀ (fuel : Nat) (s : σ) (pacc : List (List α)),
      Iterator.flattenAux step fuel s pacc.flatten =
        joinPagesOutcome (IteratorPages.collect step fuel s pacc) := by
  intro fuel
  induction fuel with
  | zero => intro s pacc; rfl
  | succ fuel ih =>
    intro s pacc
    rcases hs : step s with ⟨r, s1⟩
    rcases r with e | page
    · rcases e with _ | k | _
      · simp [Iterator.flattenAux, IteratorPages.collect, IteratorPages.anext,
          hs, joinPagesOutcome]
      · simp [Iterator.flattenAux, IteratorPages.collect, IteratorPages.anext,
          hs, joinPagesOutcome]
      · simp [Iterator.flattenAux, IteratorPages.collect, IteratorPages.anext,
          hs, joinPagesOutcome]
    · have hacc : pacc.flatten ++ page = (pacc ++ [page]).flatten := by
        simp
      simp only [Iterator.flattenAux, IteratorPages.collect, IteratorPages.anext, hs]
      rw [hacc]
      exact ih s1 (pacc ++ [page])

/-- Claim C3: for every iterator (any `next` step over any state and any
server) and any amount of fuel, `flatten()` produces exactly the in-order
concatenation of the pages yielded by the Page View driven over the same
step: both either run out of fuel together, stop with the same final state,
or propagate the same exception. -/
theorem C3_flatten_is_pages_concat (α σ : Type)
    (step : σ → Except PyErr (List α) × σ) (fuel : Nat) (s : σ) :
    Iterator.flatten step fuel s =
      joinPagesOutcome (IteratorPages.collect step fuel s []) := by
  have h := flattenAux_eq_collect step fuel s []
  simpa [Iterator.flatten] using h

/-- Counterexample to claim C9: a response body lacking the
`nextPageCursor` key makes `next()` abort with `KeyError` — the fetch does
not succeed, contrary to "a response body lacking one of these keys does
not abort the fetch". -/
theorem C9_counterexample :
    (PageIterator.next
        (fun _ => (⟨none, some (.str "p"), some [1]⟩ : CursorResponse Nat))
        (PageIterator.init "u" .Ascending 10 [] none)).result =
      .error (.keyError "nextPageCursor") := rfl

/-- Claim C9 (amended): `next()` extracts `nextPageCursor` and
`previousPageCursor` from the response body, where each value may be null
or the empty string (meaning "none"), and stores the raw values into
`next_cursor`/`previous_cursor` without failing; a response body lacking
one of these keys, however, raises `KeyError` and aborts the fetch. -/
theorem C9_cursor_extraction :
    (∀ (α : Type) (server : CursorRequest → CursorResponse α)
        (s : PageIteratorState α) (nc pc : CursorVal) (d : List α),
      (s.next_started && s.next_cursor.falsy) = false →
      server (PageIterator.mkRequest { s with next_started := true }) =
        ⟨some nc, some pc, some d⟩ →
      PageIterator.next server s =
        ⟨.ok (applyHandler s.handler d),
          { s with
            next_started := true
            next_cursor := nc
            previous_cursor := pc },
          [PageIterator.mkRequest { s with next_started := true }]⟩) ∧
    (∀ (α : Type) (server : CursorRequest → CursorResponse α)
        (s : PageIteratorState α) (pc : Option CursorVal) (d : Option (List α)),
      (s.next_started && s.next_cursor.falsy) = false →
      server (PageIterator.mkRequest { s with next_started := true }) =
        ⟨none, pc, d⟩ →
      (PageIterator.next server s).result = .error (.keyError "nextPageCursor")) ∧
    (∀ (α : Type) (server : CursorRequest → CursorResponse α)
        (s : PageIteratorState α) (nc : CursorVal) (d : Option (List α)),
      (s.next_started && s.next_cursor.falsy) = false →
      server (PageIterator.mkRequest { s with next_started := true }) =
        ⟨some nc, none, d⟩ →
      (PageIterator.next server s).result =
        .error (.keyError "previousPageCursor")) := by
  refine ⟨?_, ?_, ?_⟩
  · intro α server s nc pc d hc hr
    rw [PageIterator.next_of_fetch server s hc (some nc) (some pc) (some d) hr]
  · intro α server s pc d hc hr
    rw [PageIterator.next_of_fetch server s hc none pc d hr]
  · intro α server s nc d hc hr
    rw [PageIterator.next_of_fetch server s hc (some nc) none d hr]

/-- Witness for C9 (amended): null and empty-string cursor values are
stored without failing. -/
theorem C9_cursor_extraction_witness :
    PageIterator.next
        (fun _ => (⟨some .null, some (.str ""), some [4]⟩ : CursorResponse Nat))
        (PageIterator.init "u" .Ascending 10 [] none) =
      ⟨.ok [4],
        { url := "u", sort_order := .Ascending, limit := 10,
          extra_parameters := [], handler := none, next_cursor := .null,
          previous_cursor := .str "", next_started := true },
        [{ url := "u", cursor := .str "", limit := 10, sortOrder := "Asc",
           extra := [] }]⟩ :=
  C9_cursor_extraction.1 Nat
    (fun _ => (⟨some .null, some (.str ""), some [4]⟩ : CursorResponse Nat))
    (PageIterator.init "u" .Ascending 10 [] none) .null (.str "") [4] rfl rfl

/-- Claim C10: the exhaustion guard is decided by Python falsiness, not
string emptiness: the raw JSON value of `nextPageCursor` (possibly null) is
stored into `next_cursor`, and a started iterator with a null cursor is
exhausted exactly like one with an empty-string cursor. -/
theorem C10_falsy_guard :
    (CursorVal.falsy .null = true ∧ CursorVal.falsy (.str "") = true) ∧
    (∀ (α : Type) (server : CursorRequest → CursorResponse α)
        (s : PageIteratorState α),
      s.next_started = true → s.next_cursor = .null →
      PageIterator.next server s = ⟨.error .noMoreItems, s, []⟩) ∧
    (∀ (α : Type) (server : CursorRequest → CursorResponse α)
        (s : PageIteratorState α),
      s.next_started = true → s.next_cursor = .str "" →
      PageIterator.next server s = ⟨.error .noMoreItems, s, []⟩) ∧
    (∀ (α : Type) (server : CursorRequest → CursorResponse α)
        (s : PageIteratorState α) (nc pc : CursorVal) (d : List α),
      (s.next_started && s.next_cursor.falsy) = false →
      server (PageIterator.mkRequest { s with next_started := true }) =
        ⟨some nc, some pc, some d⟩ →
      (PageIterator.next server s).state.next_cursor = nc) := by
  refine ⟨⟨rfl, rfl⟩, ?_, ?_, ?_⟩
  · intro α server s h1 h2
    exact PageIterator.next_of_guard server s (by rw [h1, h2]; rfl)
  · intro α server s h1 h2
    exact PageIterator.next_of_guard server s (by rw [h1, h2]; rfl)
  · intro α server s nc pc d hc hr
    rw [PageIterator.next_of_fetch server s hc (some nc) (some pc) (some d) hr]

/-- Witness for C10: a started iterator whose cursor went null is
exhausted. -/
theorem C10_falsy_guard_witness :
    PageIterator.next
        (fun _ => (⟨some .null, some .null, some []⟩ : CursorResponse Nat))
        { url := "u", sort_order := .Ascending, limit := 10,
          extra_parameters := [], handler := none, next_cursor := .null,
          previous_cursor := .null, next_started := true } =
      ⟨.error .noMoreItems,
        { url := "u", sort_order := .Ascending, limit := 10,
          extra_parameters := [], handler := none, next_cursor := .null,
          previous_cursor := .null, next_started := true }, []⟩ :=
  C10_falsy_guard.2.1 Nat
    (fun _ => (⟨some .null, some .null, some []⟩ : CursorResponse Nat))
    { url := "u", sort_order := .Ascending, limit := 10,
      extra_parameters := [], handler := none, next_cursor := .null,
      previous_cursor := .null, next_started := true } rfl rfl

end RoPy
